import Mathlib

/-!
Verification of the synopsysctl deployment resource composer and cluster
command dispatcher, shallowly embedded from the Go sources:
  - `pkg/blackduck` `Creater.init` (resource set composer / PVC planner),
  - `pkg/synopsysctl/utils.go` (cluster kind detector, command dispatcher,
    object serializer).
External collaborators (Kubernetes client libraries, subprocess execution,
binary lookup on PATH, JSON marshalling) are modelled as explicit inputs.
-/

namespace Synopsysctl

/-- A storage claim declaration, from the instance specification
(`createHub.PVC` entries): logical name, optional explicit size, optional
explicit storage class. -/
structure PVCClaim where
  Name : String
  Size : String
  StorageClass : String
deriving DecidableEq, Repr

/-- Access modes of the horizon API; `init` always passes `ReadWriteOnce`. -/
inductive AccessMode where
  | readWriteOnce
  | readOnlyMany
  | readWriteMany
deriving DecidableEq, Repr

/-- The arguments handed to `util.CreatePersistentVolumeClaim(name, namespace,
size, storageClass, accessMode)`; on success the constructed PVC carries
exactly these parameters, so the resolved PVC is represented by them. -/
structure PVC where
  Name : String
  Namespace : String
  Size : String
  StorageClass : String
  Mode : AccessMode
deriving DecidableEq, Repr

/-- The size-resolution switch of `Creater.init` (part_000 lines 72-124):
each recognized claim name first receives its default size and the
declaration's own size overrides it when non-empty; an unrecognized name
keeps the declaration's raw (possibly empty) size. -/
def resolveClaimSize (claim : PVCClaim) : String :=
  if claim.Name = "blackduck-postgres" then
    if claim.Size.length > 0 then claim.Size else "150Gi"
  else if claim.Name = "blackduck-authentication" then
    if claim.Size.length > 0 then claim.Size else "2Gi"
  else if claim.Name = "blackduck-cfssl" then
    if claim.Size.length > 0 then claim.Size else "2Gi"
  else if claim.Name = "blackduck-registration" then
    if claim.Size.length > 0 then claim.Size else "2Gi"
  else if claim.Name = "blackduck-solr" then
    if claim.Size.length > 0 then claim.Size else "2Gi"
  else if claim.Name = "blackduck-webapp" then
    if claim.Size.length > 0 then claim.Size else "2Gi"
  else if claim.Name = "blackduck-logstash" then
    if claim.Size.length > 0 then claim.Size else "20Gi"
  else if claim.Name = "blackduck-zookeeper-data" then
    if claim.Size.length > 0 then claim.Size else "2Gi"
  else if claim.Name = "blackduck-zookeeper-datalog" then
    if claim.Size.length > 0 then claim.Size else "2Gi"
  else
    claim.Size

/-- The Resource Defaults Table embedded in the switch of `Creater.init`:
the default size each recognized claim name receives, `none` for an
unrecognized name. -/
def defaultSizeFor (name : String) : Option String :=
  if name = "blackduck-postgres" then some "150Gi"
  else if name = "blackduck-authentication" then some "2Gi"
  else if name = "blackduck-cfssl" then some "2Gi"
  else if name = "blackduck-registration" then some "2Gi"
  else if name = "blackduck-solr" then some "2Gi"
  else if name = "blackduck-webapp" then some "2Gi"
  else if name = "blackduck-logstash" then some "20Gi"
  else if name = "blackduck-zookeeper-data" then some "2Gi"
  else if name = "blackduck-zookeeper-datalog" then some "2Gi"
  else none

/-- The nine claim names the defaults switch recognizes. -/
def recognizedClaimNames : List String :=
  ["blackduck-postgres", "blackduck-authentication", "blackduck-cfssl",
   "blackduck-registration", "blackduck-solr", "blackduck-webapp",
   "blackduck-logstash", "blackduck-zookeeper-data",
   "blackduck-zookeeper-datalog"]

set_option maxHeartbeats 2000000 in
/-- Size resolution restated as the precedence rule: explicit size when
non-empty, else the table's default when recognized, else the raw size.
This is the bridge between the switch as written and the planner
contract. -/
theorem resolveClaimSize_eq (c : PVCClaim) :
    resolveClaimSize c =
      if c.Size.length > 0 then c.Size else (defaultSizeFor c.Name).getD c.Size := by
  rcases c with ⟨n, s, sc⟩
  simp only [resolveClaimSize, defaultSizeFor]
  by_cases hs : s.length > 0
  · simp only [if_pos hs]
    split_ifs <;> rfl
  · simp only [if_neg hs]
    split_ifs <;> rfl

/-- C1: the claim as stated is false: the recognized names carry the
`blackduck-` application prefix, so a claim literally named `postgres` with
no explicit size is unrecognized and resolves to its raw empty size, not
`150Gi`. -/
theorem C1_counterexample :
    resolveClaimSize { Name := "postgres", Size := "", StorageClass := "" } ≠ "150Gi"
      ∧ defaultSizeFor "postgres" = none := by
  constructor
  · decide
  · decide

set_option maxHeartbeats 2000000 in
/-- C1 (amended): every recognized table name carries the `blackduck-`
prefix; the table is exactly blackduck-postgres→150Gi,
blackduck-authentication→2Gi, blackduck-cfssl→2Gi,
blackduck-registration→2Gi, blackduck-solr→2Gi, blackduck-webapp→2Gi,
blackduck-logstash→20Gi, blackduck-zookeeper-data→2Gi,
blackduck-zookeeper-datalog→2Gi; a claim with no explicit size and a
recognized name resolves to the table's value, and any other name is
unrecognized. -/
theorem C1_defaults_table :
    (∀ (c : PVCClaim) (d : String), c.Size = "" → defaultSizeFor c.Name = some d →
      resolveClaimSize c = d)
    ∧ defaultSizeFor "blackduck-postgres" = some "150Gi"
    ∧ defaultSizeFor "blackduck-authentication" = some "2Gi"
    ∧ defaultSizeFor "blackduck-cfssl" = some "2Gi"
    ∧ defaultSizeFor "blackduck-registration" = some "2Gi"
    ∧ defaultSizeFor "blackduck-solr" = some "2Gi"
    ∧ defaultSizeFor "blackduck-webapp" = some "2Gi"
    ∧ defaultSizeFor "blackduck-logstash" = some "20Gi"
    ∧ defaultSizeFor "blackduck-zookeeper-data" = some "2Gi"
    ∧ defaultSizeFor "blackduck-zookeeper-datalog" = some "2Gi"
    ∧ (∀ n : String, (defaultSizeFor n).isSome → n ∈ recognizedClaimNames) := by
  refine ⟨?_, by decide, by decide, by decide, by decide, by decide, by decide,
    by decide, by decide, by decide, ?_⟩
  · intro c d hs hd
    rw [resolveClaimSize_eq, hs, hd]
    rfl
  · intro n hn
    simp only [defaultSizeFor] at hn
    split_ifs at hn with h1 h2 h3 h4 h5 h6 h7 h8 h9 <;>
      simp_all [recognizedClaimNames]

/-- C1 (witness): the amended theorem applied to the concrete claim
`blackduck-postgres` with empty size. -/
theorem C1_defaults_table_witness :
    resolveClaimSize { Name := "blackduck-postgres", Size := "", StorageClass := "" } = "150Gi" :=
  C1_defaults_table.1 { Name := "blackduck-postgres", Size := "", StorageClass := "" }
    "150Gi" rfl (by decide)

/-- C2: size resolution precedence: the declaration's explicit size when
non-empty (independently of the table, so explicit size always wins, even
for recognized names), else the Resource Defaults Table value when the name
is recognized, else the declaration's raw, possibly empty, size; in
particular claim `custom-claim` with empty size resolves to the empty
size. -/
theorem C2_size_precedence :
    (∀ c : PVCClaim, resolveClaimSize c =
      if c.Size.length > 0 then c.Size else (defaultSizeFor c.Name).getD c.Size)
    ∧ resolveClaimSize { Name := "custom-claim", Size := "", StorageClass := "" } = "" := by
  constructor
  · exact resolveClaimSize_eq
  · decide

/-- Output of an external builder (`hc.createHubSecrets`); only its identity
matters to the composer, which queues it unchanged. -/
structure Secret where
  id : String
deriving DecidableEq, Repr

/-- Output of an external builder (`hc.createHubConfig`); queued unchanged. -/
structure ConfigMap where
  id : String
deriving DecidableEq, Repr

/-- The arguments of `util.CreateServiceAccount(namespace, name)`. -/
structure ServiceAccount where
  Namespace : String
  Name : String
deriving DecidableEq, Repr

/-- The arguments of `util.CreateClusterRoleBinding`. -/
structure ClusterRoleBinding where
  Namespace : String
  Name : String
  ServiceAccountNamespace : String
  APIGroup : String
  RoleKind : String
  RoleName : String
deriving DecidableEq, Repr

/-- Output of `containerCreater.GetPostgresDeployment()` (external builder);
queued unchanged. -/
structure ReplicationController where
  id : String
deriving DecidableEq, Repr

/-- Output of `containerCreater.GetPostgresService()` (external builder);
queued unchanged. -/
structure Service where
  id : String
deriving DecidableEq, Repr

/-- External-database configuration (`v1.PostgresExternalDBConfig`); the
composer only tests its presence. -/
structure PostgresExternalDBConfig where
  PostgresHost : String
deriving DecidableEq, Repr

/-- The fields of `v1.BlackduckSpec` that `Creater.init` reads. -/
structure BlackduckSpec where
  Namespace : String
  PersistentStorage : Bool
  PVC : List PVCClaim
  PVCStorageClass : String
  ExternalPostgres : Option PostgresExternalDBConfig
deriving DecidableEq, Repr

/-- The horizon deployer as the composer sees it: per-kind queues of the
objects handed over via the `Add*` calls, in call order. -/
structure Deployer where
  namespaces : List String
  secrets : List Secret
  serviceAccounts : List ServiceAccount
  clusterRoleBindings : List ClusterRoleBinding
  configMaps : List ConfigMap
  pvcs : List PVC
  replicationControllers : List ReplicationController
  services : List Service
deriving DecidableEq, Repr

/-- The deployer before `init` queues anything. -/
def Deployer.empty : Deployer :=
  { namespaces := [], secrets := [], serviceAccounts := [],
    clusterRoleBindings := [], configMaps := [], pvcs := [],
    replicationControllers := [], services := [] }

/-- The resolved PVC parameters `init` hands to
`util.CreatePersistentVolumeClaim` for one declaration: storage class from
the declaration when non-empty else the global default, size from the
defaults switch, access mode fixed to read-write-once. -/
def mkPVCArgs (ns pvcStorageClass : String) (claim : PVCClaim) : PVC :=
  { Name := claim.Name
    Namespace := ns
    Size := resolveClaimSize claim
    StorageClass :=
      if claim.StorageClass.length > 0 then claim.StorageClass else pvcStorageClass
    Mode := AccessMode.readWriteOnce }

/-- The error message `init` wraps a constructor failure in (part_000
line 128). -/
def pvcErrorMsg (claimName ns err : String) : String :=
  "failed to create the postgres PVC " ++ claimName ++ " in namespace " ++ ns
    ++ " because " ++ err

/-- The PVC loop of `Creater.init` (part_000 lines 66-132). The constructor
`util.CreatePersistentVolumeClaim` is external; it is passed in as `ctor`,
returning `some err` when it rejects the resolved parameters and `none` when
it accepts them (in which case the constructed PVC carries exactly those
parameters). On rejection the loop returns the wrapped error immediately,
leaving the deployer as mutated so far. -/
def addPVCs (ctor : PVC → Option String) (ns pvcStorageClass : String) :
    List PVCClaim → Deployer → Deployer × Option String
  | [], d => (d, none)
  | claim :: rest, d =>
    let args := mkPVCArgs ns pvcStorageClass claim
    match ctor args with
    | some err => (d, some (pvcErrorMsg claim.Name ns err))
    | none =>
        addPVCs ctor ns pvcStorageClass rest { d with pvcs := d.pvcs ++ [args] }

/-- The deployer after the unconditional steps of `Creater.init` (part_000
lines 38-63): namespace queued when the probe failed to find it, then the
secrets, the service account named after the namespace, the
cluster-admin cluster role binding, and the config maps. -/
def preLoopDeployer (namespaceExists : Bool) (secrets : List Secret)
    (configMaps : List ConfigMap) (createHub : BlackduckSpec) : Deployer :=
  let d := Deployer.empty
  let d := if namespaceExists then d
    else { d with namespaces := d.namespaces ++ [createHub.Namespace] }
  let d := { d with secrets := d.secrets ++ secrets }
  let d := { d with serviceAccounts := d.serviceAccounts ++
    [({ Namespace := createHub.Namespace, Name := createHub.Namespace } :
      ServiceAccount)] }
  let d := { d with clusterRoleBindings := d.clusterRoleBindings ++
    [({ Namespace := createHub.Namespace, Name := createHub.Namespace,
        ServiceAccountNamespace := createHub.Namespace, APIGroup := "",
        RoleKind := "ClusterRole", RoleName := "cluster-admin" } :
      ClusterRoleBinding)] }
  { d with configMaps := d.configMaps ++ configMaps }

/-- `Creater.init` (part_000 lines 35-144), with the external collaborators
as inputs: `namespaceExists` is the outcome of the `util.GetNamespace`
probe, `secrets` and `configMaps` the outputs of the secret/config builders,
`postgresRC` and `postgresService` the outputs of the container creater, and
`ctor` the PVC constructor. Returns the final deployer state together with
the error, if any: a constructor rejection returns immediately, before the
embedded-database step. -/
def init (ctor : PVC → Option String) (namespaceExists : Bool)
    (secrets : List Secret) (configMaps : List ConfigMap)
    (postgresRC : ReplicationController) (postgresService : Service)
    (createHub : BlackduckSpec) : Deployer × Option String :=
  let d0 := preLoopDeployer namespaceExists secrets configMaps createHub
  let step :=
    if createHub.PersistentStorage then
      addPVCs ctor createHub.Namespace createHub.PVCStorageClass createHub.PVC d0
    else (d0, none)
  match step with
  | (d, some e) => (d, some e)
  | (d, none) =>
      match createHub.ExternalPostgres with
      | none =>
          ({ d with
              replicationControllers := d.replicationControllers ++ [postgresRC],
              services := d.services ++ [postgresService] }, none)
      | some _ => (d, none)

/-- The unconditional composer steps queue no PVC, no workload controller
and no service. -/
theorem preLoopDeployer_untouched (namespaceExists : Bool)
    (secrets : List Secret) (configMaps : List ConfigMap)
    (createHub : BlackduckSpec) :
    (preLoopDeployer namespaceExists secrets configMaps createHub).pvcs = []
      ∧ (preLoopDeployer namespaceExists secrets configMaps
          createHub).replicationControllers = []
      ∧ (preLoopDeployer namespaceExists secrets configMaps
          createHub).services = [] := by
  cases namespaceExists <;> exact ⟨rfl, rfl, rfl⟩

/-- The PVC loop only ever appends to the deployer's PVC queue; every other
queue is returned unchanged. -/
theorem addPVCs_other_queues (ctor : PVC → Option String) (ns sc : String)
    (claims : List PVCClaim) (d : Deployer) :
    (addPVCs ctor ns sc claims d).1.namespaces = d.namespaces
      ∧ (addPVCs ctor ns sc claims d).1.secrets = d.secrets
      ∧ (addPVCs ctor ns sc claims d).1.serviceAccounts = d.serviceAccounts
      ∧ (addPVCs ctor ns sc claims d).1.clusterRoleBindings = d.clusterRoleBindings
      ∧ (addPVCs ctor ns sc claims d).1.configMaps = d.configMaps
      ∧ (addPVCs ctor ns sc claims d).1.replicationControllers
          = d.replicationControllers
      ∧ (addPVCs ctor ns sc claims d).1.services = d.services := by
  induction claims generalizing d with
  | nil => exact ⟨rfl, rfl, rfl, rfl, rfl, rfl, rfl⟩
  | cons c cs ih =>
      simp only [addPVCs]
      cases h : ctor (mkPVCArgs ns sc c) with
      | some e => simp [h]
      | none => simp only [h]; exact ih _

/-- When the constructor accepts every declaration, the PVC loop appends
exactly the resolved PVC of each declaration, in order, and reports no
error. -/
theorem addPVCs_all_accepted (ctor : PVC → Option String) (ns sc : String)
    (claims : List PVCClaim) (d : Deployer)
    (h : ∀ c ∈ claims, ctor (mkPVCArgs ns sc c) = none) :
    addPVCs ctor ns sc claims d =
      ({ d with pvcs := d.pvcs ++ claims.map (mkPVCArgs ns sc) }, none) := by
  induction claims generalizing d with
  | nil => simp [addPVCs]
  | cons c cs ih =>
      have hc := h c (by simp)
      simp only [addPVCs, hc]
      rw [ih _ (fun c' h' => h c' (List.mem_cons_of_mem _ h'))]
      simp

/-- When the constructor accepts every declaration before some rejected
declaration, the PVC loop stops at the rejected one: it returns the wrapped
error naming that declaration and the namespace, with exactly the earlier
declarations' resolved PVCs appended to the queue — the rejected and the
later declarations are not queued, but the earlier ones remain. -/
theorem addPVCs_first_rejection (ctor : PVC → Option String) (ns sc : String)
    (pre : List PVCClaim) (c : PVCClaim) (post : List PVCClaim)
    (d : Deployer) (msg : String)
    (hpre : ∀ c' ∈ pre, ctor (mkPVCArgs ns sc c') = none)
    (hc : ctor (mkPVCArgs ns sc c) = some msg) :
    addPVCs ctor ns sc (pre ++ c :: post) d =
      ({ d with pvcs := d.pvcs ++ pre.map (mkPVCArgs ns sc) },
       some (pvcErrorMsg c.Name ns msg)) := by
  induction pre generalizing d with
  | nil => simp [addPVCs, hc]
  | cons p ps ih =>
      have hp := hpre p (by simp)
      simp only [List.cons_append, addPVCs, hp]
      simp only [List.append_eq]
      rw [ih _ (fun c' h' => hpre c' (List.mem_cons_of_mem _ h'))]
      simp

/-- C4: the claim as stated is false: with two declarations of which the
constructor rejects only the second, composition returns an error and yet
the first declaration's PVC is already queued on the deployer — the queue
is mutated incrementally, so earlier PVCs are handed over even when the
pass fails. -/
theorem C4_counterexample :
    ((init (fun a => if a.Size = "oops" then some "bad" else none) true [] []
        { id := "rc" } { id := "svc" }
        { Namespace := "ns1", PersistentStorage := true,
          PVC := [{ Name := "blackduck-postgres", Size := "", StorageClass := "" },
                  { Name := "custom", Size := "oops", StorageClass := "" }],
          PVCStorageClass := "standard", ExternalPostgres := none }).2).isSome
      ∧ (init (fun a => if a.Size = "oops" then some "bad" else none) true [] []
          { id := "rc" } { id := "svc" }
          { Namespace := "ns1", PersistentStorage := true,
            PVC := [{ Name := "blackduck-postgres", Size := "", StorageClass := "" },
                    { Name := "custom", Size := "oops", StorageClass := "" }],
            PVCStorageClass := "standard", ExternalPostgres := none }).1.pvcs ≠ [] := by
  constructor
  · decide
  · decide

/-- C4 (amended): when the constructor rejects a declaration, planning
aborts immediately at the first rejected declaration with a wrapped error
naming that claim and the namespace; the rejected claim's PVC and all later
claims' PVCs are not queued and the embedded-database objects are not
queued either, but the PVCs of claims accepted before the failure remain
queued on the deployer. -/
theorem C4_planner_abort (ctor : PVC → Option String) (namespaceExists : Bool)
    (secrets : List Secret) (configMaps : List ConfigMap)
    (postgresRC : ReplicationController) (postgresService : Service)
    (spec : BlackduckSpec) (pre : List PVCClaim) (c : PVCClaim)
    (post : List PVCClaim) (msg : String)
    (hps : spec.PersistentStorage = true)
    (hpvc : spec.PVC = pre ++ c :: post)
    (hpre : ∀ c' ∈ pre,
      ctor (mkPVCArgs spec.Namespace spec.PVCStorageClass c') = none)
    (hc : ctor (mkPVCArgs spec.Namespace spec.PVCStorageClass c) = some msg) :
    init ctor namespaceExists secrets configMaps postgresRC postgresService spec
      = ({ preLoopDeployer namespaceExists secrets configMaps spec with
            pvcs := pre.map (mkPVCArgs spec.Namespace spec.PVCStorageClass) },
         some (pvcErrorMsg c.Name spec.Namespace msg))
      ∧ (init ctor namespaceExists secrets configMaps postgresRC postgresService
          spec).1.replicationControllers = []
      ∧ (init ctor namespaceExists secrets configMaps postgresRC postgresService
          spec).1.services = [] := by
  have hd0 := preLoopDeployer_untouched namespaceExists secrets configMaps spec
  have key := addPVCs_first_rejection ctor spec.Namespace spec.PVCStorageClass
    pre c post (preLoopDeployer namespaceExists secrets configMaps spec) msg hpre hc
  rw [hd0.1] at key
  simp only [List.nil_append] at key
  have hmain :
      init ctor namespaceExists secrets configMaps postgresRC postgresService spec
        = ({ preLoopDeployer namespaceExists secrets configMaps spec with
              pvcs := pre.map (mkPVCArgs spec.Namespace spec.PVCStorageClass) },
           some (pvcErrorMsg c.Name spec.Namespace msg)) := by
    simp only [init, hps, if_true, hpvc, key]
  refine ⟨hmain, ?_, ?_⟩
  · rw [hmain]
    exact hd0.2.1
  · rw [hmain]
    exact hd0.2.2

/-- C4 (witness): the amended theorem at a concrete two-claim input whose
second claim is rejected. -/
theorem C4_planner_abort_witness :
    init (fun a => if a.Size = "oops" then some "bad" else none) true [] []
        { id := "rc" } { id := "svc" }
        { Namespace := "ns1", PersistentStorage := true,
          PVC := [{ Name := "blackduck-postgres", Size := "", StorageClass := "" },
                  { Name := "custom", Size := "oops", StorageClass := "" }],
          PVCStorageClass := "standard", ExternalPostgres := none }
      = ({ preLoopDeployer true [] []
            { Namespace := "ns1", PersistentStorage := true,
              PVC := [{ Name := "blackduck-postgres", Size := "",
                        StorageClass := "" },
                      { Name := "custom", Size := "oops", StorageClass := "" }],
              PVCStorageClass := "standard", ExternalPostgres := none } with
          pvcs := [{ Name := "blackduck-postgres", Namespace := "ns1",
                     Size := "150Gi", StorageClass := "standard",
                     Mode := AccessMode.readWriteOnce }] },
         some (pvcErrorMsg "custom" "ns1" "bad")) := by
  have h := C4_planner_abort (fun a => if a.Size = "oops" then some "bad" else none)
    true [] [] { id := "rc" } { id := "svc" }
    { Namespace := "ns1", PersistentStorage := true,
      PVC := [{ Name := "blackduck-postgres", Size := "", StorageClass := "" },
              { Name := "custom", Size := "oops", StorageClass := "" }],
      PVCStorageClass := "standard", ExternalPostgres := none }
    [{ Name := "blackduck-postgres", Size := "", StorageClass := "" }]
    { Name := "custom", Size := "oops", StorageClass := "" } [] "bad"
    rfl rfl (by intro c' h'; fin_cases h'; decide) (by decide)
  rw [h.1]
  decide

/-- C7: the composer queues exactly one embedded-database workload
controller and exactly one matching service when the specification has no
external-database configuration, and neither when it has one (restricted to
compositions that return no error; an aborted pass stops before this
step). -/
theorem C7_embedded_database (ctor : PVC → Option String)
    (namespaceExists : Bool) (secrets : List Secret)
    (configMaps : List ConfigMap) (postgresRC : ReplicationController)
    (postgresService : Service) (spec : BlackduckSpec)
    (hok : (init ctor namespaceExists secrets configMaps postgresRC
        postgresService spec).2 = none) :
    (init ctor namespaceExists secrets configMaps postgresRC postgresService
        spec).1.replicationControllers
      = (if spec.ExternalPostgres.isNone then [postgresRC] else [])
      ∧ (init ctor namespaceExists secrets configMaps postgresRC postgresService
          spec).1.services
        = (if spec.ExternalPostgres.isNone then [postgresService] else []) := by
  have hd0 := preLoopDeployer_untouched namespaceExists secrets configMaps spec
  rcases hstep : (if spec.PersistentStorage then
      addPVCs ctor spec.Namespace spec.PVCStorageClass spec.PVC
        (preLoopDeployer namespaceExists secrets configMaps spec)
    else (preLoopDeployer namespaceExists secrets configMaps spec, none))
    with ⟨d1, err⟩
  have hq := addPVCs_other_queues ctor spec.Namespace spec.PVCStorageClass
    spec.PVC (preLoopDeployer namespaceExists secrets configMaps spec)
  have hrc : d1.replicationControllers = [] := by
    by_cases hps : spec.PersistentStorage
    · rw [if_pos hps] at hstep
      rw [hstep] at hq
      exact hq.2.2.2.2.2.1.trans hd0.2.1
    · rw [if_neg hps] at hstep
      have : d1 = preLoopDeployer namespaceExists secrets configMaps spec :=
        (Prod.mk.injEq _ _ _ _ ▸ hstep).1.symm
      rw [this]
      exact hd0.2.1
  have hsvc : d1.services = [] := by
    by_cases hps : spec.PersistentStorage
    · rw [if_pos hps] at hstep
      rw [hstep] at hq
      exact hq.2.2.2.2.2.2.trans hd0.2.2
    · rw [if_neg hps] at hstep
      have : d1 = preLoopDeployer namespaceExists secrets configMaps spec :=
        (Prod.mk.injEq _ _ _ _ ▸ hstep).1.symm
      rw [this]
      exact hd0.2.2
  simp only [init, hstep] at hok ⊢
  cases err with
  | some e => simp at hok
  | none =>
      cases hepg : spec.ExternalPostgres with
      | none => simp [hepg, hrc, hsvc]
      | some cfg => simp [hepg, hrc, hsvc]

/-- C7 (witness): the theorem at a concrete specification without external
database (one controller and one service queued); the error-free hypothesis
holds by evaluation. -/
theorem C7_embedded_database_witness :
    (init (fun _ => none) true [] [] { id := "rc" } { id := "svc" }
        { Namespace := "ns", PersistentStorage := false, PVC := [],
          PVCStorageClass := "", ExternalPostgres := none }).1.replicationControllers
      = [{ id := "rc" }]
      ∧ (init (fun _ => none) true [] [] { id := "rc" } { id := "svc" }
          { Namespace := "ns", PersistentStorage := false, PVC := [],
            PVCStorageClass := "", ExternalPostgres := none }).1.services
        = [{ id := "svc" }] := by
  have h := C7_embedded_database (fun _ => none) true [] [] { id := "rc" }
    { id := "svc" }
    { Namespace := "ns", PersistentStorage := false, PVC := [],
      PVCStorageClass := "", ExternalPostgres := none } (by decide)
  simpa using h

/-- C9: a declaration named `blackduck-postgres` with empty size, under a
specification with persistence enabled, is planned as a PVC of size
`150Gi` with access mode read-write-once (storage class falling back to the
global default), and the pass reports no error. -/
theorem C9_postgres_scenario (ctor : PVC → Option String)
    (namespaceExists : Bool) (secrets : List Secret)
    (configMaps : List ConfigMap) (postgresRC : ReplicationController)
    (postgresService : Service) (ns sc : String)
    (epg : Option PostgresExternalDBConfig)
    (hacc : ctor (mkPVCArgs ns sc
      { Name := "blackduck-postgres", Size := "", StorageClass := "" }) = none) :
    (init ctor namespaceExists secrets configMaps postgresRC postgresService
        { Namespace := ns, PersistentStorage := true,
          PVC := [{ Name := "blackduck-postgres", Size := "",
                    StorageClass := "" }],
          PVCStorageClass := sc, ExternalPostgres := epg }).1.pvcs
      = [{ Name := "blackduck-postgres", Namespace := ns, Size := "150Gi",
           StorageClass := sc, Mode := AccessMode.readWriteOnce }]
      ∧ (init ctor namespaceExists secrets configMaps postgresRC postgresService
          { Namespace := ns, PersistentStorage := true,
            PVC := [{ Name := "blackduck-postgres", Size := "",
                      StorageClass := "" }],
            PVCStorageClass := sc, ExternalPostgres := epg }).2 = none := by
  have hd0 := preLoopDeployer_untouched namespaceExists secrets configMaps
    { Namespace := ns, PersistentStorage := true,
      PVC := [{ Name := "blackduck-postgres", Size := "", StorageClass := "" }],
      PVCStorageClass := sc, ExternalPostgres := epg }
  have key := addPVCs_all_accepted ctor ns sc
    [{ Name := "blackduck-postgres", Size := "", StorageClass := "" }]
    (preLoopDeployer namespaceExists secrets configMaps
      { Namespace := ns, PersistentStorage := true,
        PVC := [{ Name := "blackduck-postgres", Size := "", StorageClass := "" }],
        PVCStorageClass := sc, ExternalPostgres := epg })
    (by intro c' h'
        simp only [List.mem_singleton] at h'
        rw [h']
        exact hacc)
  rw [hd0.1] at key
  have hargs : mkPVCArgs ns sc
      { Name := "blackduck-postgres", Size := "", StorageClass := "" }
      = { Name := "blackduck-postgres", Namespace := ns, Size := "150Gi",
          StorageClass := sc, Mode := AccessMode.readWriteOnce } := by
    simp [mkPVCArgs]
    decide
  simp only [List.map_cons, List.map_nil, List.nil_append, hargs] at key
  cases epg with
  | none => simp [init, key]
  | some cfg => simp [init, key]

/-- C9 (witness): the scenario at fully concrete inputs with a constructor
that accepts everything. -/
theorem C9_postgres_scenario_witness :
    (init (fun _ => none) true [] [] { id := "rc" } { id := "svc" }
        { Namespace := "blackduck", PersistentStorage := true,
          PVC := [{ Name := "blackduck-postgres", Size := "",
                    StorageClass := "" }],
          PVCStorageClass := "standard", ExternalPostgres := none }).1.pvcs
      = [{ Name := "blackduck-postgres", Namespace := "blackduck",
           Size := "150Gi", StorageClass := "standard",
           Mode := AccessMode.readWriteOnce }] :=
  (C9_postgres_scenario (fun _ => none) true [] [] { id := "rc" }
    { id := "svc" } "blackduck" "standard" none rfl).1

/-- `DetermineClusterClients` (utils.go lines 142-180) over its three
effective inputs: whether `kubectl` resolves on the local path, whether
`oc` resolves, and the outcome of the `util.IsOpenshift` cluster probe.
Returns `(kube, openshift)`, evaluating the four rules in source order. -/
def DetermineClusterClients (kubectlPath ocPath openshiftTest : Bool) :
    Bool × Bool :=
  if ocPath && openshiftTest then (false, true)
  else if kubectlPath && !openshiftTest then (true, false)
  else if kubectlPath && !ocPath && openshiftTest then (true, false)
  else if ocPath && !kubectlPath && !openshiftTest then (false, true)
  else (false, false)

/-- C3: the detector never reports both Kubernetes and OpenShift, and it
reports neither exactly when neither client binary resolves on the local
path, for every combination of the three inputs. -/
theorem C3_detector_exclusive :
    ∀ kubectlPath ocPath openshiftTest : Bool,
      DetermineClusterClients kubectlPath ocPath openshiftTest ≠ (true, true)
      ∧ (DetermineClusterClients kubectlPath ocPath openshiftTest = (false, false)
          ↔ kubectlPath = false ∧ ocPath = false) := by
  decide

/-- Outcome of building the cluster command in `getKubeExecCmd`: the command
(binary and argument vector), the determination error, or the Go runtime
panic raised by indexing an empty argument slice. -/
inductive ExecCmdResult where
  | cmd (binary : String) (args : List String)
  | err (msg : String)
  | indexOutOfRange
deriving DecidableEq, Repr

/-- The caller-visible argument vector of a built command, empty when no
command was built. -/
def ExecCmdResult.argList : ExecCmdResult → List String
  | ExecCmdResult.cmd _ a => a
  | _ => []

/-- The global flags the dispatcher prepends (utils.go lines 191-197): the
insecure flag is prepended first when enabled, then the kubeconfig flag
when the path is set, so the kubeconfig flag ends up in front. -/
def globalFlags (insecureSkipTLSVerify : Bool) (kubeConfigPath : String) :
    List String :=
  (if kubeConfigPath ≠ "" then ["--kubeconfig=" ++ kubeConfigPath] else [])
    ++ (if insecureSkipTLSVerify then ["--insecure-skip-tls-verify=true"]
        else [])

/-- `getKubeExecCmd` (utils.go lines 182-205): determine the cluster kind,
read the first argument (a Go panic when the slice is empty), substitute
`status` for `cluster-info` on OpenShift, prepend the global flags, and
select the binary; an error when neither kind resolved. -/
def getKubeExecCmd
    (kubectlPath ocPath openshiftTest insecureSkipTLSVerify : Bool)
    (kubeConfigPath : String) (args : List String) : ExecCmdResult :=
  let kube := (DetermineClusterClients kubectlPath ocPath openshiftTest).1
  let openshift := (DetermineClusterClients kubectlPath ocPath openshiftTest).2
  match args with
  | [] => ExecCmdResult.indexOutOfRange
  | a0 :: rest =>
      let args := if a0 = "cluster-info" ∧ openshift = true
        then "status" :: rest else a0 :: rest
      let args := if insecureSkipTLSVerify
        then "--insecure-skip-tls-verify=true" :: args else args
      let args := if kubeConfigPath ≠ ""
        then ("--kubeconfig=" ++ kubeConfigPath) :: args else args
      if openshift then ExecCmdResult.cmd "oc" args
      else if kube then ExecCmdResult.cmd "kubectl" args
      else ExecCmdResult.err
        "couldn't determine if running in Openshift or Kubernetes"

/-- Outcome of one dispatcher invocation: the subprocess actually run
(binary, argument vector, optional piped standard input — `none` for the
interactive variants), an error returned to the caller, or a Go runtime
panic. -/
inductive DispatchResult where
  | executed (binary : String) (args : List String) (stdin : Option String)
  | errored (msg : String)
  | panicked (reason : String)
deriving DecidableEq, Repr

/-- `RunKubeCmd` (utils.go lines 209-220): builds the command via
`getKubeExecCmd` and runs it capturing combined output; the subprocess
itself is external, so the result records the command executed. -/
def RunKubeCmd (kubectlPath ocPath openshiftTest insecureSkipTLSVerify : Bool)
    (kubeConfigPath : String) (args : List String) : DispatchResult :=
  match getKubeExecCmd kubectlPath ocPath openshiftTest insecureSkipTLSVerify
      kubeConfigPath args with
  | ExecCmdResult.cmd b a => DispatchResult.executed b a none
  | ExecCmdResult.err m => DispatchResult.errored m
  | ExecCmdResult.indexOutOfRange =>
      DispatchResult.panicked "index out of range"

/-- `RunKubeCmdWithStdin` (utils.go lines 223-244): like `RunKubeCmd` but
streams `stdin` into the subprocess's input pipe. -/
def RunKubeCmdWithStdin
    (kubectlPath ocPath openshiftTest insecureSkipTLSVerify : Bool)
    (kubeConfigPath : String) (stdin : String) (args : List String) :
    DispatchResult :=
  match getKubeExecCmd kubectlPath ocPath openshiftTest insecureSkipTLSVerify
      kubeConfigPath args with
  | ExecCmdResult.cmd b a => DispatchResult.executed b a (some stdin)
  | ExecCmdResult.err m => DispatchResult.errored m
  | ExecCmdResult.indexOutOfRange =>
      DispatchResult.panicked "index out of range"

/-- `RunKubeEditorCmd` (utils.go lines 248-278): re-inlines the dispatch
logic with input/output wired to the user, but its binary selection has no
else branch: when neither kind resolves, `cmd` stays nil and the subsequent
`cmd.Stdin` assignment dereferences a nil pointer — a runtime panic, not a
returned error. -/
def RunKubeEditorCmd
    (kubectlPath ocPath openshiftTest insecureSkipTLSVerify : Bool)
    (kubeConfigPath : String) (args : List String) : DispatchResult :=
  let kube := (DetermineClusterClients kubectlPath ocPath openshiftTest).1
  let openshift := (DetermineClusterClients kubectlPath ocPath openshiftTest).2
  match args with
  | [] => DispatchResult.panicked "index out of range"
  | a0 :: rest =>
      let args := if a0 = "cluster-info" ∧ openshift = true
        then "status" :: rest else a0 :: rest
      let args := if insecureSkipTLSVerify
        then "--insecure-skip-tls-verify=true" :: args else args
      let args := if kubeConfigPath ≠ ""
        then ("--kubeconfig=" ++ kubeConfigPath) :: args else args
      if openshift then DispatchResult.executed "oc" args none
      else if kube then DispatchResult.executed "kubectl" args none
      else DispatchResult.panicked
        "invalid memory address or nil pointer dereference"

/-- C5: when neither client binary resolves, the captured-output and
stdin-piped dispatch variants return the determination error, but the
interactive editor variant dereferences its nil command and panics instead
of failing with an error — the claim holds for the first two variants and
is violated by `RunKubeEditorCmd`. -/
theorem C5_editor_nil_dereference :
    RunKubeCmd false false false false "" ["edit", "alert"]
        = DispatchResult.errored
            "couldn't determine if running in Openshift or Kubernetes"
      ∧ RunKubeCmdWithStdin false false false false "" "payload"
          ["edit", "alert"]
        = DispatchResult.errored
            "couldn't determine if running in Openshift or Kubernetes"
      ∧ RunKubeEditorCmd false false false false "" ["edit", "alert"]
        = DispatchResult.panicked
            "invalid memory address or nil pointer dereference"
      ∧ ∀ msg : String,
          RunKubeEditorCmd false false false false "" ["edit", "alert"]
            ≠ DispatchResult.errored msg := by
  refine ⟨by decide, by decide, by decide, ?_⟩
  intro msg h
  simp [RunKubeEditorCmd, DetermineClusterClients] at h

/-- C6: whenever a command is produced, its argument vector is the global
flags followed by the caller's arguments, whose head is replaced by
`status` exactly when it was `cluster-info` and the detected kind is
OpenShift, and is left unchanged otherwise. -/
theorem C6_cluster_info_shim
    (kubectlPath ocPath openshiftTest insecureSkipTLSVerify : Bool)
    (kubeConfigPath : String) (a0 : String) (rest : List String)
    (h : (kubectlPath || ocPath) = true) :
    (getKubeExecCmd kubectlPath ocPath openshiftTest insecureSkipTLSVerify
        kubeConfigPath (a0 :: rest)).argList
      = globalFlags insecureSkipTLSVerify kubeConfigPath
        ++ (if a0 = "cluster-info"
              ∧ (DetermineClusterClients kubectlPath ocPath openshiftTest).2
                = true
            then "status" else a0) :: rest := by
  cases kubectlPath <;> cases ocPath <;> cases openshiftTest <;>
    simp_all [getKubeExecCmd, DetermineClusterClients, globalFlags,
      ExecCmdResult.argList] <;>
    split_ifs <;>
    simp_all [ExecCmdResult.argList]

/-- C6 (witness): on a detected OpenShift cluster with both binaries
present and no global flags, `cluster-info` is dispatched as `status`. -/
theorem C6_cluster_info_shim_witness :
    (getKubeExecCmd true true true false "" ["cluster-info"]).argList
      = globalFlags false ""
        ++ (if "cluster-info" = "cluster-info"
              ∧ (DetermineClusterClients true true true).2 = true
            then "status" else "cluster-info") :: [] :=
  C6_cluster_info_shim true true true false "" "cluster-info" [] (by decide)

/-- C10: every dispatch operation reads the first element of its argument
list: on an empty argument list each one hits the out-of-bounds slice index
(a Go runtime panic), and on a non-empty list none of them does — callers
must never dispatch with zero arguments. -/
theorem C10_first_argument_read :
    ∀ (kubectlPath ocPath openshiftTest insecureSkipTLSVerify : Bool)
      (kubeConfigPath stdin : String),
      (getKubeExecCmd kubectlPath ocPath openshiftTest insecureSkipTLSVerify
          kubeConfigPath [] = ExecCmdResult.indexOutOfRange
        ∧ RunKubeCmd kubectlPath ocPath openshiftTest insecureSkipTLSVerify
            kubeConfigPath [] = DispatchResult.panicked "index out of range"
        ∧ RunKubeCmdWithStdin kubectlPath ocPath openshiftTest
            insecureSkipTLSVerify kubeConfigPath stdin []
            = DispatchResult.panicked "index out of range"
        ∧ RunKubeEditorCmd kubectlPath ocPath openshiftTest
            insecureSkipTLSVerify kubeConfigPath []
            = DispatchResult.panicked "index out of range")
      ∧ ∀ (a0 : String) (rest : List String),
          getKubeExecCmd kubectlPath ocPath openshiftTest
              insecureSkipTLSVerify kubeConfigPath (a0 :: rest)
              ≠ ExecCmdResult.indexOutOfRange
            ∧ RunKubeCmd kubectlPath ocPath openshiftTest
                insecureSkipTLSVerify kubeConfigPath (a0 :: rest)
                ≠ DispatchResult.panicked "index out of range"
            ∧ RunKubeCmdWithStdin kubectlPath ocPath openshiftTest
                insecureSkipTLSVerify kubeConfigPath stdin (a0 :: rest)
                ≠ DispatchResult.panicked "index out of range"
            ∧ RunKubeEditorCmd kubectlPath ocPath openshiftTest
                insecureSkipTLSVerify kubeConfigPath (a0 :: rest)
                ≠ DispatchResult.panicked "index out of range" := by
  intro kubectlPath ocPath openshiftTest insecureSkipTLSVerify kubeConfigPath stdin
  refine ⟨⟨rfl, rfl, rfl, rfl⟩, ?_⟩
  intro a0 rest
  refine ⟨?_, ?_, ?_, ?_⟩
  · simp only [getKubeExecCmd]
    split_ifs <;> simp
  · simp only [RunKubeCmd, getKubeExecCmd]
    split_ifs <;> simp
  · simp only [RunKubeCmdWithStdin, getKubeExecCmd]
    split_ifs <;> simp
  · simp only [RunKubeEditorCmd]
    split_ifs <;> simp

/-- A runtime object held in the string-keyed map the serializer walks; its
JSON byte form comes from the external `json.Marshal`, passed in as
`marshal`. -/
structure RuntimeObject where
  id : String
deriving DecidableEq, Repr

/-- The marshal-and-concatenate loop shared by `KubectlApplyRuntimeObjects`
and `KubectlDeleteRuntimeObjects` (utils.go lines 283-290 and 301-308):
walk the map entries in iteration order, serialize each object, abort on
the first marshalling error, and append each byte form to the payload. -/
def serializeObjects (marshal : RuntimeObject → Except String String) :
    List (String × RuntimeObject) → Except String String
  | [] => Except.ok ""
  | (_, obj) :: rest =>
      match marshal obj with
      | Except.error e => Except.error e
      | Except.ok s =>
          match serializeObjects marshal rest with
          | Except.error e => Except.error e
          | Except.ok tailPayload => Except.ok (s ++ tailPayload)

/-- `KubectlApplyRuntimeObjects` (utils.go lines 282-296): pipes the
concatenated payload into `apply --validate=false -f -`. -/
def KubectlApplyRuntimeObjects (marshal : RuntimeObject → Except String String)
    (kubectlPath ocPath openshiftTest insecureSkipTLSVerify : Bool)
    (kubeConfigPath : String) (objects : List (String × RuntimeObject)) :
    Except String DispatchResult :=
  match serializeObjects marshal objects with
  | Except.error e => Except.error e
  | Except.ok content =>
      Except.ok (RunKubeCmdWithStdin kubectlPath ocPath openshiftTest
        insecureSkipTLSVerify kubeConfigPath content
        ["apply", "--validate=false", "-f", "-"])

/-- `KubectlDeleteRuntimeObjects` (utils.go lines 300-314): pipes the
concatenated payload into `delete -f -`. -/
def KubectlDeleteRuntimeObjects (marshal : RuntimeObject → Except String String)
    (kubectlPath ocPath openshiftTest insecureSkipTLSVerify : Bool)
    (kubeConfigPath : String) (objects : List (String × RuntimeObject)) :
    Except String DispatchResult :=
  match serializeObjects marshal objects with
  | Except.error e => Except.error e
  | Except.ok content =>
      Except.ok (RunKubeCmdWithStdin kubectlPath ocPath openshiftTest
        insecureSkipTLSVerify kubeConfigPath content
        ["delete", "-f", "-"])

/-- C8: the claim as stated is false in its determinism part: the objects
live in a string-keyed Go map whose iteration order is unspecified, and two
iteration orders of the same entry set produce different payloads — the
payload is not a deterministic function of the composed set alone. -/
theorem C8_counterexample :
    List.Perm
        [("a", ({ id := "x" } : RuntimeObject)), ("b", { id := "y" })]
        [("b", ({ id := "y" } : RuntimeObject)), ("a", { id := "x" })]
      ∧ serializeObjects (fun o => Except.ok o.id)
          [("a", { id := "x" }), ("b", { id := "y" })] = Except.ok "xy"
      ∧ serializeObjects (fun o => Except.ok o.id)
          [("b", { id := "y" }), ("a", { id := "x" })] = Except.ok "yx"
      ∧ ("xy" : String) ≠ "yx" := by
  refine ⟨by decide, rfl, rfl, by decide⟩

/-- C8 (amended): the payload is the raw concatenation of the
independently serialized byte form of each object in map-iteration order —
no multi-document envelope — but that order is an unspecified property of
the string-keyed map, so the payload is a deterministic function of the
iteration sequence, not of the composed set alone. -/
theorem C8_payload_concatenation (bytes : RuntimeObject → String)
    (objects : List (String × RuntimeObject)) :
    serializeObjects (fun o => Except.ok (bytes o)) objects
      = Except.ok
          ((objects.map fun p => bytes p.2).foldr (fun s t => s ++ t) "") := by
  induction objects with
  | nil => rfl
  | cons p rest ih =>
      rcases p with ⟨k, obj⟩
      simp [serializeObjects, ih]

end Synopsysctl
